import Mathlib

/-
Verification of the wallet reputation engine of the decaptcha package.

The embedding models the pure computation of the source files
package/src/lib/reputation.ts, the custom scoring module and the
Etherscan analysis module.  JavaScript numbers are embedded as Int,
Nat or Rat as appropriate; the 32-bit wrap of the bitwise operators
is made explicit.  Network effects are abstracted by passing the
settled outcome of a data fetch as an explicit argument, and the
wall clock by an explicit parameter called now.
-/

namespace Decap

/-- Wrap an integer into the signed 32-bit range, the effect of the
JavaScript `n |= 0` coercion and of the bitwise shift operators. -/
def toInt32 (n : Int) : Int := (n + 2 ^ 31) % 2 ^ 32 - 2 ^ 31

/-- One step of the rolling hash used by the fallback scorer:
`hash = ((hash << 5) - hash) + charCode; hash |= 0`.  The left shift wraps
to 32 bits before the subtraction, and the result wraps again. -/
def hashStep (h : Int) (c : Nat) : Int := toInt32 (toInt32 (h * 32) - h + c)

/-- The rolling hash over the characters of an address string, as computed by
the loops in generateFallbackScore and generateFallbackWalletData
(source part_011, customScoring).  Characters are taken by their code units. -/
def addressHash (s : String) : Int := s.data.foldl (fun h c => hashStep h c.toNat) 0

/-- JavaScript `Math.round`: round half away from zero toward positive
infinity, which equals the floor of `x + 1/2`. -/
def jsRound (x : ℚ) : ℚ := ((⌊x + 1 / 2⌋ : ℤ) : ℚ)

/-- RiskFlag of types/index.ts.  The `type` field is the literal string union
`tornado_cash | large_inflow | large_outflow | no_activity`; the literal
`tornado_cash` is what the specification calls the mixer-interaction flag. -/
structure RiskFlag where
  type : String
  severity : Int
  description : String
deriving Repr, DecidableEq

/-- WalletData of types/index.ts.  Counts are list lengths and set sizes in
the source, hence Nat; `walletAge` and `lastActivity` are derived from clock
arithmetic and may be negative, hence Int. -/
structure WalletData where
  address : String
  transactionCount : Nat
  contractInteractions : Nat
  knownProtocolInteractions : List String
  walletAge : Int
  tokenCount : Nat
  nftCount : Nat
  riskFlags : List RiskFlag
  lastActivity : Int
deriving Repr, DecidableEq

/-- ScoringWeights of types/index.ts. -/
structure ScoringWeights where
  transactionActivity : Int
  contractInteractions : Int
  walletAge : Int
  tokenDiversity : Int
  riskFlags : Int
deriving Repr, DecidableEq

/-- ReputationConfig of types/index.ts. -/
structure ReputationConfig where
  easyThreshold : Int
  bypassThreshold : Int
  weights : ScoringWeights
deriving Repr, DecidableEq

/-- DEFAULT_WEIGHTS of customScoring (source part_011). -/
def DEFAULT_WEIGHTS : ScoringWeights :=
  { transactionActivity := 30, contractInteractions := 20, walletAge := 20,
    tokenDiversity := 10, riskFlags := -30 }

/-- DEFAULT_CONFIG of customScoring (source part_011). -/
def DEFAULT_CONFIG : ReputationConfig :=
  { easyThreshold := 40, bypassThreshold := 70, weights := DEFAULT_WEIGHTS }

inductive TrustLevel where
  | low
  | medium
  | high
deriving Repr, DecidableEq

inductive CaptchaMode where
  | bypass
  | simple
  | advanced
deriving Repr, DecidableEq

/-- generateFallbackWalletData of customScoring (source part_011 lines 37-58):
deterministic synthetic wallet data derived from the address hash.  The
`now` parameter stands for the Date.now() call used for lastActivity. -/
def generateFallbackWalletData (address : String) (now : Int) : WalletData :=
  let absHash := (addressHash address).natAbs
  { address := address,
    transactionCount := absHash % 50 + 1,
    contractInteractions := absHash % 10 + 1,
    knownProtocolInteractions := [],
    walletAge := (absHash % 365 : Nat) + 30,
    tokenCount := absHash % 5 + 1,
    nftCount := absHash % 3,
    riskFlags := [],
    lastActivity := now - ((absHash % 86400000 : Nat) + 3600000) }

/-- calculateScore of customScoring (source part_011 lines 149-196).  The
weights argument is accepted and ignored exactly as in the source, whose
body uses hardcoded point values.  The age comparison divides by 30 in
rational arithmetic as JavaScript does. -/
def calculateScore (data : WalletData) (weights : ScoringWeights) : Int :=
  let score : Int := 0
  let score := if data.transactionCount ≥ 101 then score + 30
    else if data.transactionCount ≥ 11 then score + 15
    else if data.transactionCount > 0 then score + 5
    else score
  let score := if data.contractInteractions > 0 then score + 10 else score
  let score := if data.knownProtocolInteractions.length > 0 then score + 10 else score
  let ageInMonths : ℚ := (data.walletAge : ℚ) / 30
  let score := if ageInMonths ≥ 6 then score + 20
    else if ageInMonths ≥ 1 then score + 10
    else score + 5
  let totalAssets := data.tokenCount + data.nftCount
  let score := if totalAssets > 10 then score + 10
    else if totalAssets ≥ 3 then score + 6
    else if totalAssets ≥ 1 then score + 2
    else score
  let score := data.riskFlags.foldl (fun s flag => s + flag.severity) score
  max 0 (min 100 score)

/-- determineCaptchaMode of customScoring (source part_011 lines 201-205). -/
def determineCaptchaMode (score : Int) (config : ReputationConfig) : CaptchaMode :=
  if score ≥ config.bypassThreshold then CaptchaMode.bypass
  else if score ≥ config.easyThreshold then CaptchaMode.simple
  else CaptchaMode.advanced

/-- getTrustLevel of customScoring (source part_011 lines 210-214). -/
def getTrustLevel (score : Int) : TrustLevel :=
  if score ≥ 70 then TrustLevel.high
  else if score ≥ 40 then TrustLevel.medium
  else TrustLevel.low

namespace Reputation

/-- getTrustLevel of lib/reputation.ts lines 98-102, a second copy of the
same classification. -/
def getTrustLevel (score : Int) : TrustLevel :=
  if score ≥ 70 then TrustLevel.high
  else if score ≥ 40 then TrustLevel.medium
  else TrustLevel.low

/-- getCaptchaMode of lib/reputation.ts lines 105-109. -/
def getCaptchaMode (score : Int) (config : ReputationConfig) : CaptchaMode :=
  if score ≥ config.bypassThreshold then CaptchaMode.bypass
  else if score ≥ config.easyThreshold then CaptchaMode.simple
  else CaptchaMode.advanced

end Reputation

/-- generateFallbackScore of customScoring (source part_011 lines 274-283):
rolling hash of the address reduced into the range 20 to 60.  A pure
function of the address string alone, hence deterministic across calls
and processes. -/
def generateFallbackScore (walletAddress : String) : Nat :=
  (addressHash walletAddress).natAbs % 41 + 20

/-- EtherscanTransaction of utils/etherscanApi (uuid.ts part).  The source
carries `value` and `timeStamp` as decimal strings and parses them with
parseFloat and parseInt at the points of use; the embedding carries the
parsed values.  The source field `from` is a Lean keyword and is embedded
as `fromAddr`, and `to` likewise as `toAddr`. -/
structure EtherscanTransaction where
  txHash : String
  fromAddr : String
  toAddr : String
  value : ℚ
  timeStamp : Int
  isError : String
  contractAddress : Option String
deriving Repr, DecidableEq, Inhabited

/-- KNOWN_PROTOCOL_ADDRESSES of utils/etherscanApi: contract address to
protocol tag. -/
def KNOWN_PROTOCOL_ADDRESSES : List (String × String) :=
  [("0x7a250d5630b4cf539739df2c5dacb4c659f2488d", "uniswap_v2_router"),
   ("0xe592427a0aece92de3edee1f18e0157c05861564", "uniswap_v3_router"),
   ("0x68b3465833fb72a70ecdf485e0e4c7bd8665fc45", "uniswap_v3_router2"),
   ("0x7d2768de32b0b80b7a3454c06bdac94a69ddc7a9", "aave_lending_pool"),
   ("0x87870bced4dd9d65f45c0b0847c88634c9c0f9f1", "aave_v3_pool"),
   ("0x3d9819210a31b4961b30ef54be2aed79b9c9cd3b", "compound_comptroller"),
   ("0xc00e94cb662c3520282e6f5717214004a7f26888", "compound_governance"),
   ("0x9f8f72aa9304c8b593d555f12ef6589cc3a579a2", "maker_mkr"),
   ("0x6b175474e89094c44da98b954eedeac495271d0f", "maker_dai"),
   ("0xd51a44d3fae010294c616388b506acda1bfaae46", "curve_tricrypto"),
   ("0xbebc44782c7db0a1a60cb6fe97d0b483032ff1c7", "curve_3pool"),
   ("0x57f1887a8bf19b14fc0df6fd9b2acc9af147ea85", "ens_registrar"),
   ("0x314159265dd8dbb310642f98f50c066173c1259b", "ens_registry"),
   ("0x12d66f87a04a9e220743712ce6d9bb1b5616b8fc", "tornado_cash_0.1_eth"),
   ("0x47ce0c6ed5b0ce3d3a51fdb1c52dc66a7c3c2936", "tornado_cash_1_eth"),
   ("0x910cbd523d972eb0a6f4cae4618ad62622b39dbf", "tornado_cash_10_eth"),
   ("0xa160cdab225685da1d56aa342ad8841c3b53f291", "tornado_cash_100_eth")]

/-- The tornado-cash tag prefix, the substring the source tests with
`includes` when building RISK_PATTERNS.TORNADO_CASH and when excluding risk
protocols from the positive-signal set. -/
def tornadoTag : String := "tornado_cash"

/-- RISK_PATTERNS.TORNADO_CASH of utils/etherscanApi: the addresses whose
protocol tag contains the tornado-cash substring. -/
def TORNADO_CASH : List String :=
  (KNOWN_PROTOCOL_ADDRESSES.filter (fun p => decide (List.IsInfix tornadoTag.data p.2.data))).map
    (fun p => p.1)

/-- RISK_PATTERNS.LARGE_TRANSACTION_THRESHOLD (in ETH). -/
def LARGE_TRANSACTION_THRESHOLD : ℚ := 10

/-- RISK_PATTERNS.SUSPICIOUS_ACTIVITY_WINDOW (24 hours in milliseconds). -/
def SUSPICIOUS_ACTIVITY_WINDOW : Int := 24 * 60 * 60 * 1000

/-- Generic lookup in a string-keyed association list, first match wins,
modelling both the Map and plain-object reads of the source. -/
def assocGet {α : Type _} : List (String × α) → String → Option α
  | [], _ => none
  | (k, v) :: rest, key => if k = key then some v else assocGet rest key

/-- Generic write to a string-keyed association list: replace the first
entry with the key, or append, modelling Map.set and object assignment. -/
def assocSet {α : Type _} : List (String × α) → String → α → List (String × α)
  | [], key, value => [(key, value)]
  | (k, v) :: rest, key, value =>
    if k = key then (key, value) :: rest else (k, v) :: assocSet rest key value

/-- The key list of a string-keyed association list, the Object.keys view
of the batch result record. -/
def assocKeys {α : Type _} (l : List (String × α)) : List String :=
  l.map (fun kv => kv.1)

/-- analyzeRiskFlags of utils/etherscanApi (uuid.ts part, lines 314-351).
The `now` parameter stands for the Date.now() call at the top of the
function. -/
def analyzeRiskFlags (now : Int) (transactions : List EtherscanTransaction) : List RiskFlag :=
  let tornadoInteractions :=
    transactions.filter (fun tx => TORNADO_CASH.contains tx.toAddr.toLower)
  let riskFlags : List RiskFlag :=
    if tornadoInteractions.length > 0 then
      [{ type := tornadoTag, severity := -30,
         description := "Detected " ++ toString tornadoInteractions.length
           ++ " Tornado Cash interaction(s)" }]
    else []
  let recentLargeTransactions := transactions.filter (fun tx =>
    decide (now - tx.timeStamp * 1000 < SUSPICIOUS_ACTIVITY_WINDOW) &&
    decide (tx.value / (10 ^ 18 : ℚ) > LARGE_TRANSACTION_THRESHOLD))
  if recentLargeTransactions.length > 0 then
    let isInflow :=
      recentLargeTransactions.any (fun tx => tx.toAddr.toLower == tx.fromAddr.toLower)
    riskFlags ++
      [{ type := if isInflow then "large_inflow" else "large_outflow", severity := -10,
         description := "Detected " ++ toString recentLargeTransactions.length
           ++ " large transaction(s) in last 24h" }]
  else riskFlags

/-- The separator used by detectProtocolInteractions to cut the protocol
tag down to its base name. -/
def underscore : String := "_"

/-- detectProtocolInteractions of utils/etherscanApi lines 356-370: the
deduplicated base names of known protocols appearing as counterparties,
excluding the tornado-cash risk entries.  The Set of the source is embedded
as a fold keeping first-insertion order. -/
def detectProtocolInteractions (transactions : List EtherscanTransaction) : List String :=
  transactions.foldl (fun protocols tx =>
    let toAddress := tx.toAddr.toLower
    match assocGet KNOWN_PROTOCOL_ADDRESSES toAddress with
    | some protocol =>
      if List.IsInfix tornadoTag.data protocol.data then protocols
      else
        let base := ((protocol.splitOn underscore).headD protocol)
        if protocols.contains base then protocols else protocols ++ [base]
    | none => protocols) []

/-- calculateWalletAge of utils/etherscanApi lines 375-387.  The source
sorts ascending by timestamp and reads the first element; the embedding
takes the minimum timestamp, which is what that sort-and-index computes.
Math.floor of the day division is integer floor division. -/
def calculateWalletAge (now : Int) (transactions : List EtherscanTransaction) : Int :=
  if transactions.length = 0 then 0
  else
    let timestamps := transactions.map (fun tx => tx.timeStamp)
    let firstTxTime := (timestamps.foldl min (timestamps.headD 0)) * 1000
    Int.fdiv (now - firstTxTime) (24 * 60 * 60 * 1000)

/-- Deduplicate a list keeping first occurrences, the embedding of
collecting values into a JavaScript Set. -/
def dedup (l : List String) : List String :=
  l.foldl (fun acc s => if acc.contains s then acc else acc ++ [s]) []

/-- countAssets of utils/etherscanApi lines 392-408: cardinalities of the
distinct lowercased contract-address sets.  The filter(Boolean) of the
source drops missing and empty contract addresses. -/
def countAssets (tokenTransfers nftTransfers : List EtherscanTransaction) : Nat × Nat :=
  let collect := fun (l : List EtherscanTransaction) =>
    dedup (l.filterMap (fun tx =>
      match tx.contractAddress with
      | some s => if s = "" then none else some s.toLower
      | none => none))
  ((collect tokenTransfers).length, (collect nftTransfers).length)

/-- The no-activity RiskFlag appended by fetchRealWalletData (lines
441-447) when the address has zero transactions; the one flag not produced
by analyzeRiskFlags itself. -/
def noActivityFlag : RiskFlag :=
  { type := "no_activity", severity := -20,
    description := "Wallet has no transaction history" }

/-- The pure tail of fetchRealWalletData of utils/etherscanApi lines
413-476: given the four fetched lists, run the analyzers, append the
no-activity flag when the transaction list is empty, and assemble the
WalletData record.  The network part of the source function is the fetch
of the four lists, abstracted here as the arguments. -/
def buildWalletData (now : Int) (address : String)
    (transactions internalTxs tokenTransfers nftTransfers : List EtherscanTransaction) :
    WalletData :=
  let allTransactions := transactions ++ internalTxs
  let riskFlags := analyzeRiskFlags now allTransactions
  let knownProtocolInteractions := detectProtocolInteractions allTransactions
  let walletAge := calculateWalletAge now transactions
  let assets := countAssets tokenTransfers nftTransfers
  let riskFlags :=
    if transactions.length = 0 then riskFlags ++ [noActivityFlag]
    else riskFlags
  { address := address,
    transactionCount := transactions.length,
    contractInteractions := internalTxs.length,
    knownProtocolInteractions := knownProtocolInteractions,
    walletAge := walletAge,
    tokenCount := assets.1,
    nftCount := assets.2,
    riskFlags := riskFlags,
    lastActivity :=
      if transactions.length > 0 then (transactions.headD default).timeStamp * 1000 else 0 }

/-- calculateWalletReputation of customScoring (source part_011 lines
220-268).  The awaited fetchRealWalletData call is abstracted by its
settled outcome `fetchResult`; on rejection the inner catch substitutes the
deterministic synthetic wallet data.  The outer catch of the source is
unreachable, because everything after the inner catch is total, so the
outer fallback to generateFallbackScore never executes. -/
def calculateWalletReputation (walletAddress : String) (config : ReputationConfig)
    (now : Int) (fetchResult : Except String WalletData) : Int :=
  let walletData :=
    match fetchResult with
    | Except.ok wd => wd
    | Except.error _ => generateFallbackWalletData walletAddress now
  calculateScore walletData config.weights

/-- normalizeScore of lib/reputation.ts lines 86-90.  The argument stands
for the result of the `Number(rawScore)` coercion: `none` is NaN, `some x`
a finite number.  The `|| 0` replaces the falsy values NaN and 0 by 0; the
clamp tests run before the rounding, as in the source. -/
def normalizeScore (rawScore : Option ℚ) : ℚ :=
  let score : ℚ :=
    match rawScore with
    | none => 0
    | some x => if x = 0 then 0 else x
  if score < 0 then 0 else if score > 100 then 100 else jsRound score

/-- ReputationSourceResult of types/index.ts. -/
structure ReputationSourceResult where
  source : String
  rawScore : ℚ
  normalizedScore : ℚ
  weight : ℚ
  success : Bool
  error : Option String
deriving Repr, DecidableEq

/-- ReputationData of types/index.ts. -/
structure ReputationData where
  walletAddress : String
  score : ℚ
  sources : List ReputationSourceResult
  lastUpdated : Nat
  cacheExpiry : Nat
deriving Repr, DecidableEq

/-- The module-level reputationCache Map of lib/reputation.ts, embedded as
a string-keyed association list. -/
abbrev Cache := List (String × ReputationData)

/-- The try and catch arms of fetchWalletReputation lines 22-68: build the
ReputationData record from the settled outcome of the awaited
calculateWalletReputation call.  The success arm weighs the custom score
with 1, the catch arm weighs the fallback score with 0.5; both then divide
the weighted total by the total weight. -/
def computeReputation (now : Nat) (walletAddress : String)
    (calcOutcome : Except String Int) : ReputationData :=
  match calcOutcome with
  | Except.ok customScore =>
    let normalizedScore := normalizeScore (some (customScore : ℚ))
    let weight : ℚ := 1
    let totalScore := normalizedScore * weight
    let totalWeight := weight
    let finalScore := if totalWeight > 0 then jsRound (totalScore / totalWeight) else 0
    { walletAddress := walletAddress, score := finalScore,
      sources := [{ source := "custom", rawScore := (customScore : ℚ),
                    normalizedScore := normalizedScore, weight := weight,
                    success := true, error := none }],
      lastUpdated := now, cacheExpiry := now + 300000 }
  | Except.error msg =>
    let fallbackScore := generateFallbackScore walletAddress
    let normalizedScore := normalizeScore (some (fallbackScore : ℚ))
    let weight : ℚ := 1 / 2
    let totalScore := normalizedScore * weight
    let totalWeight := weight
    let finalScore := if totalWeight > 0 then jsRound (totalScore / totalWeight) else 0
    { walletAddress := walletAddress, score := finalScore,
      sources := [{ source := "fallback", rawScore := (fallbackScore : ℚ),
                    normalizedScore := normalizedScore, weight := weight,
                    success := false, error := some msg }],
      lastUpdated := now, cacheExpiry := now + 300000 }

/-- The opportunistic cleanup of fetchWalletReputation lines 73-81: when
the cache holds more than 100 entries, delete every entry whose expiry has
passed. -/
def cacheCleanup (now : Nat) (cache : Cache) : Cache :=
  if cache.length > 100 then
    cache.filter (fun kv => decide (now ≤ kv.2.cacheExpiry))
  else cache

/-- fetchWalletReputation of lib/reputation.ts lines 8-84, generic over the
settled outcome of the awaited calculateWalletReputation call: serve a
fresh cached entry unchanged, otherwise compute, store under the bare
address key, clean up, and return.  The Bool of the result records whether
the compute path ran, hence whether a data-client call was issued. -/
def fetchWalletReputationWith (cache : Cache) (now : Nat) (walletAddress : String)
    (calcOutcome : Except String Int) : ReputationData × Cache × Bool :=
  let hit :=
    match assocGet cache walletAddress with
    | some cached => if now < cached.cacheExpiry then some cached else none
    | none => none
  match hit with
  | some cached => (cached, cache, false)
  | none =>
    let reputationData := computeReputation now walletAddress calcOutcome
    let cache1 := assocSet cache walletAddress reputationData
    (reputationData, cacheCleanup now cache1, true)

/-- fetchWalletReputation of lib/reputation.ts, with the inner data fetch
abstracted by its outcome.  calculateWalletReputation settles successfully
for every outcome, because its source catches every error internally, so
the composition always passes an ok value and the catch arm of
computeReputation is dead code in this composition. -/
def fetchWalletReputation (cache : Cache) (now : Nat) (walletAddress : String)
    (config : ReputationConfig) (fetchResult : Except String WalletData) :
    ReputationData × Cache × Bool :=
  fetchWalletReputationWith cache now walletAddress
    (Except.ok (calculateWalletReputation walletAddress config now fetchResult))

/-- The loop of batchCalculateReputation (source part_011 lines 288-318):
take the next group of at most 10 addresses, score each (the per-address
catch is dead code because calculateWalletReputation never rejects), write
the scores into the result record in group order, and continue with the
rest.  The bounded concurrency of the source only schedules the group; the
collected insertion order equals the input order. -/
def batchGo (config : ReputationConfig) (now : Int)
    (fetch : String → Except String WalletData) :
    List String → List (String × Int) → List (String × Int)
  | [], results => results
  | a :: rest, results =>
    let batch := (a :: rest).take 10
    let batchResults :=
      batch.map (fun address =>
        (address, calculateWalletReputation address config now (fetch address)))
    let results := batchResults.foldl (fun acc p => assocSet acc p.1 p.2) results
    batchGo config now fetch ((a :: rest).drop 10) results
termination_by l _ => l.length
decreasing_by simp [List.length_drop]; omega

/-- batchCalculateReputation of customScoring (source part_011 lines
288-318), with the per-address data fetch abstracted by `fetch`. -/
def batchCalculateReputation (addresses : List String) (config : ReputationConfig)
    (now : Int) (fetch : String → Except String WalletData) : List (String × Int) :=
  batchGo config now fetch addresses []

/-- A concrete live WalletData record used as an explicit input in witness
and counterexample theorems. -/
def sampleLiveWalletData : WalletData :=
  { address := "a", transactionCount := 150, contractInteractions := 5,
    knownProtocolInteractions := ["uniswap"], walletAge := 200,
    tokenCount := 6, nftCount := 6, riskFlags := [], lastActivity := 0 }

/-- Concrete address used in witness and counterexample theorems. -/
def addrA : String := "a"

/-- Second concrete address used in witness theorems. -/
def addrB : String := "b"

/-- The empty address string. -/
def addrEmpty : String := ""

/-- Concrete error message standing for an exhausted-retry data-client
failure. -/
def errDown : String := "down"

/-- The record computed and cached by a failed-data call for the address
a at time 0, used as an explicit concrete value in counterexamples. -/
def fallbackRecordA : ReputationData :=
  computeReputation 0 addrA
    (Except.ok (calculateWalletReputation addrA DEFAULT_CONFIG ((0 : Nat) : Int)
      (Except.error errDown)))

/-- The final clamp of calculateScore keeps every value inside 0 to 100. -/
theorem clamp_bounds (s : Int) : 0 ≤ max 0 (min 100 s) ∧ max 0 (min 100 s) ≤ 100 :=
  ⟨le_max_left 0 _, max_le (by norm_num) (min_le_left 100 s)⟩

/-- Rounding an integer-valued rational is the identity. -/
theorem jsRound_intCast (k : ℤ) : jsRound ((k : ℚ)) = (k : ℚ) := by
  unfold jsRound
  have : (⌊(k : ℚ) + 1 / 2⌋ : ℤ) = k := by
    rw [Int.floor_eq_iff]
    constructor
    · linarith
    · push_cast
      linarith
  rw [this]

/-- normalizeScore always produces an integer value between 0 and 100. -/
theorem normalizeScore_int (v : Option ℚ) :
    ∃ k : ℤ, normalizeScore v = (k : ℚ) ∧ 0 ≤ k ∧ k ≤ 100 := by
  have hhalf : (⌊(2⁻¹ : ℚ)⌋ : ℤ) = 0 := by
    rw [Int.floor_eq_iff] <;> norm_num
  rcases v with _ | x
  · exact ⟨0, by norm_num [normalizeScore, jsRound, hhalf], le_refl 0, by norm_num⟩
  · by_cases hx0 : x = 0
    · exact ⟨0, by norm_num [normalizeScore, jsRound, hx0, hhalf], le_refl 0, by norm_num⟩
    · by_cases hneg : x < 0
      · exact ⟨0, by simp [normalizeScore, hx0, hneg], le_refl 0, by norm_num⟩
      · by_cases hbig : x > 100
        · exact ⟨100, by simp [normalizeScore, hx0, hneg, hbig], by norm_num, le_refl 100⟩
        · refine ⟨⌊x + 1 / 2⌋, ?_, ?_, ?_⟩
          · simp [normalizeScore, hx0, hneg, hbig, jsRound]
          · refine Int.le_floor.mpr ?_
            push_cast
            push_neg at hneg
            linarith
          · have hlt : ⌊x + 1 / 2⌋ < 101 := by
              refine Int.floor_lt.mpr ?_
              push_neg at hbig
              push_cast
              linarith
            omega

/-- Rounding is the identity on the output of normalizeScore. -/
theorem jsRound_normalizeScore (v : Option ℚ) :
    jsRound (normalizeScore v) = normalizeScore v := by
  obtain ⟨k, hk, -, -⟩ := normalizeScore_int v
  rw [hk, jsRound_intCast]

/-- Reading back a key just written returns the written value. -/
theorem assocGet_assocSet_self {α : Type _} (l : List (String × α)) (k : String) (v : α) :
    assocGet (assocSet l k v) k = some v := by
  induction l with
  | nil => simp [assocGet, assocSet]
  | cons head tail ih =>
    by_cases h : head.1 = k
    · simp [assocSet, assocGet, h]
    · simp [assocSet, assocGet, h, ih]

/-- Writing one key leaves reads of other keys unchanged. -/
theorem assocGet_assocSet_ne {α : Type _} (l : List (String × α)) (k k' : String) (v : α)
    (h : k' ≠ k) : assocGet (assocSet l k v) k' = assocGet l k' := by
  have hne : k ≠ k' := Ne.symm h
  induction l with
  | nil => simp [assocGet, assocSet, hne]
  | cons head tail ih =>
    rcases head with ⟨hk1, hv1⟩
    by_cases hk : hk1 = k
    · subst hk
      simp [assocSet, assocGet, hne]
    · simp [assocSet, assocGet, hk, ih]

/-- A filter keeps an association readable if its entry satisfies the
predicate. -/
theorem assocGet_filter {α : Type _} (p : String × α → Bool) (l : List (String × α))
    (k : String) (v : α) (hget : assocGet l k = some v) (hp : p (k, v) = true) :
    assocGet (l.filter p) k = some v := by
  induction l with
  | nil => simp [assocGet] at hget
  | cons head tail ih =>
    by_cases hk : head.1 = k
    · have hv : head.2 = v := by
        simp [assocGet, hk] at hget
        exact hget
      have hhead : head = (k, v) := by
        cases head
        simp_all
      rw [List.filter_cons, hhead]
      simp [hp, assocGet]
    · rw [List.filter_cons]
      have hget' : assocGet tail k = some v := by
        simpa [assocGet, hk] using hget
      by_cases hph : p head = true
      · simp [hph, assocGet, hk, ih hget']
      · simp [hph, ih hget']

/-- Every flag produced by analyzeRiskFlags has a type in the closed
four-value union of types/index.ts and a severity between -30 and -10. -/
theorem analyzeRiskFlags_mem (now : Int) (txs : List EtherscanTransaction)
    (flag : RiskFlag) (h : flag ∈ analyzeRiskFlags now txs) :
    (flag.type = "tornado_cash" ∨ flag.type = "large_inflow" ∨
     flag.type = "large_outflow" ∨ flag.type = "no_activity") ∧
    -30 ≤ flag.severity ∧ flag.severity ≤ -10 := by
  simp only [analyzeRiskFlags] at h
  split_ifs at h
  · simp only [List.mem_append, List.mem_singleton] at h
    rcases h with rfl | rfl
    · exact ⟨Or.inl rfl, by norm_num⟩
    · exact ⟨Or.inr (Or.inl rfl), by norm_num⟩
  · simp only [List.mem_append, List.mem_singleton] at h
    rcases h with rfl | rfl
    · exact ⟨Or.inl rfl, by norm_num⟩
    · exact ⟨Or.inr (Or.inr (Or.inl rfl)), by norm_num⟩
  · simp only [List.nil_append, List.mem_singleton] at h
    subst h
    exact ⟨Or.inr (Or.inl rfl), by norm_num⟩
  · simp only [List.nil_append, List.mem_singleton] at h
    subst h
    exact ⟨Or.inr (Or.inr (Or.inl rfl)), by norm_num⟩
  · simp only [List.mem_singleton] at h
    subst h
    exact ⟨Or.inl rfl, by norm_num⟩
  · simp at h

/-- The riskFlags field assembled by the fetchRealWalletData tail is the
analyzer output plus, for an empty transaction list, the appended
no-activity flag. -/
theorem buildWalletData_riskFlags (now : Int) (address : String)
    (txs internalTxs tokenTxs nftTxs : List EtherscanTransaction) :
    (buildWalletData now address txs internalTxs tokenTxs nftTxs).riskFlags =
      if txs.length = 0 then
        analyzeRiskFlags now (txs ++ internalTxs) ++ [noActivityFlag]
      else analyzeRiskFlags now (txs ++ internalTxs) := rfl

/-- C4: every RiskFlag produced by the pipeline, whether by analyzeRiskFlags
on a transaction list or appended by the orchestrating fetchRealWalletData
when a wallet has zero transactions, has a type in the closed set
tornado_cash (the mixer-interaction flag of the specification),
large_inflow, large_outflow, no_activity, and an integer severity between
-30 and -10. -/
theorem riskFlags_closed_set (now : Int) (address : String)
    (txs internalTxs tokenTxs nftTxs : List EtherscanTransaction) :
    (∀ flag ∈ analyzeRiskFlags now txs,
      (flag.type = "tornado_cash" ∨ flag.type = "large_inflow" ∨
       flag.type = "large_outflow" ∨ flag.type = "no_activity") ∧
      -30 ≤ flag.severity ∧ flag.severity ≤ -10) ∧
    (∀ flag ∈ (buildWalletData now address txs internalTxs tokenTxs nftTxs).riskFlags,
      (flag.type = "tornado_cash" ∨ flag.type = "large_inflow" ∨
       flag.type = "large_outflow" ∨ flag.type = "no_activity") ∧
      -30 ≤ flag.severity ∧ flag.severity ≤ -10) := by
  refine ⟨fun flag h => analyzeRiskFlags_mem now txs flag h, fun flag h => ?_⟩
  rw [buildWalletData_riskFlags] at h
  split_ifs at h
  · rcases List.mem_append.mp h with h' | h'
    · exact analyzeRiskFlags_mem now (txs ++ internalTxs) flag h'
    · rcases List.mem_singleton.mp h' with rfl
      exact ⟨Or.inr (Or.inr (Or.inr rfl)), by decide⟩
  · exact analyzeRiskFlags_mem now (txs ++ internalTxs) flag h

/-- Witness for C4: the theorem applied to the concrete empty fetch, whose
built wallet data carries exactly the appended no-activity flag. -/
theorem riskFlags_closed_set_witness :
    (noActivityFlag.type = "tornado_cash" ∨ noActivityFlag.type = "large_inflow" ∨
     noActivityFlag.type = "large_outflow" ∨ noActivityFlag.type = "no_activity") ∧
    -30 ≤ noActivityFlag.severity ∧ noActivityFlag.severity ≤ -10 :=
  (riskFlags_closed_set 0 "z" [] [] [] []).2 noActivityFlag (by decide)

/-- C5: calculateScore maps every WalletData and every weight configuration
to an integer between 0 and 100; the weighted sum is clamped at both ends
and the function is total, so no wraparound and no error is possible. -/
theorem calculateScore_in_range (data : WalletData) (weights : ScoringWeights) :
    0 ≤ calculateScore data weights ∧ calculateScore data weights ≤ 100 :=
  clamp_bounds _

/-- C6: with the default thresholds, bypassThreshold 70 and easyThreshold
40, both copies of the classification functions map score 70 to high and
bypass, 69 to medium and simple, 39 to low and advanced, 0 to low and
advanced, and 100 to high and bypass. -/
theorem classification_boundaries :
    getTrustLevel 70 = TrustLevel.high ∧
    determineCaptchaMode 70 DEFAULT_CONFIG = CaptchaMode.bypass ∧
    getTrustLevel 69 = TrustLevel.medium ∧
    determineCaptchaMode 69 DEFAULT_CONFIG = CaptchaMode.simple ∧
    getTrustLevel 39 = TrustLevel.low ∧
    determineCaptchaMode 39 DEFAULT_CONFIG = CaptchaMode.advanced ∧
    getTrustLevel 0 = TrustLevel.low ∧
    determineCaptchaMode 0 DEFAULT_CONFIG = CaptchaMode.advanced ∧
    getTrustLevel 100 = TrustLevel.high ∧
    determineCaptchaMode 100 DEFAULT_CONFIG = CaptchaMode.bypass ∧
    Reputation.getTrustLevel 70 = TrustLevel.high ∧
    Reputation.getCaptchaMode 70 DEFAULT_CONFIG = CaptchaMode.bypass ∧
    Reputation.getTrustLevel 69 = TrustLevel.medium ∧
    Reputation.getCaptchaMode 69 DEFAULT_CONFIG = CaptchaMode.simple ∧
    Reputation.getTrustLevel 39 = TrustLevel.low ∧
    Reputation.getCaptchaMode 39 DEFAULT_CONFIG = CaptchaMode.advanced ∧
    Reputation.getTrustLevel 0 = TrustLevel.low ∧
    Reputation.getCaptchaMode 0 DEFAULT_CONFIG = CaptchaMode.advanced ∧
    Reputation.getTrustLevel 100 = TrustLevel.high ∧
    Reputation.getCaptchaMode 100 DEFAULT_CONFIG = CaptchaMode.bypass := by
  decide

/-- C7: generateFallbackScore is a pure function of the address string
alone, with no clock or input-output dependence, so repeated calls in any
process agree, and its value always lies between 20 and 60. -/
theorem generateFallbackScore_range (A : String) :
    20 ≤ generateFallbackScore A ∧ generateFallbackScore A ≤ 60 := by
  unfold generateFallbackScore
  omega

/-- C10: normalizeScore is total on its coerced input domain and always
returns an integer between 0 and 100; a NaN coercion or a zero value yields
0, negative values yield 0, and values above 100 yield 100. -/
theorem normalizeScore_total :
    (∀ v : Option ℚ, ∃ k : ℤ, normalizeScore v = (k : ℚ) ∧ 0 ≤ k ∧ k ≤ 100) ∧
    normalizeScore none = 0 ∧
    normalizeScore (some 0) = 0 ∧
    (∀ x : ℚ, x < 0 → normalizeScore (some x) = 0) ∧
    (∀ x : ℚ, 100 < x → normalizeScore (some x) = 100) := by
  have hhalf : (⌊(2⁻¹ : ℚ)⌋ : ℤ) = 0 := by
    rw [Int.floor_eq_iff] <;> norm_num
  refine ⟨normalizeScore_int, ?_, ?_, ?_, ?_⟩
  · norm_num [normalizeScore, jsRound, hhalf]
  · norm_num [normalizeScore, jsRound, hhalf]
  · intro x hx
    have hne : x ≠ 0 := ne_of_lt hx
    simp [normalizeScore, hne, hx]
  · intro x hx
    have hne : x ≠ 0 := by
      intro hh
      rw [hh] at hx
      exact absurd hx (by norm_num)
    have hnn : ¬ x < 0 := by linarith
    simp [normalizeScore, hne, hnn, hx]

/-- Witness for C10: concrete evaluations obtained by applying the theorem
at explicit inputs. -/
theorem normalizeScore_total_witness :
    normalizeScore (some (-3)) = 0 ∧ normalizeScore (some 101) = 100 :=
  ⟨normalizeScore_total.2.2.2.1 (-3) (by norm_num),
   normalizeScore_total.2.2.2.2 101 (by norm_num)⟩

/-- Both arms of computeReputation stamp the same expiry. -/
theorem computeReputation_cacheExpiry (now : Nat) (A : String) (o : Except String Int) :
    (computeReputation now A o).cacheExpiry = now + 300000 := by
  cases o <;> rfl

/-- A record with the standard expiry survives the cleanup sweep and stays
readable under its key. -/
theorem computeAndStore_cached (cache : Cache) (now : Nat) (A : String)
    (r : ReputationData) (hexp : r.cacheExpiry = now + 300000) :
    assocGet (cacheCleanup now (assocSet cache A r)) A = some r := by
  unfold cacheCleanup
  split_ifs
  · refine assocGet_filter _ _ _ _ (assocGet_assocSet_self cache A r) ?_
    simp [hexp]
  · exact assocGet_assocSet_self cache A r

/-- Whatever path a fetch takes, its returned result is readable from its
returned cache under the bare address key. -/
theorem fetch_result_cached (cache : Cache) (now : Nat) (A : String)
    (o : Except String Int) :
    assocGet ((fetchWalletReputationWith cache now A o).2.1) A
      = some ((fetchWalletReputationWith cache now A o).1) := by
  unfold fetchWalletReputationWith
  cases hget : assocGet cache A with
  | some cached =>
    by_cases hfresh : now < cached.cacheExpiry
    · simp [hget, hfresh]
    · simp only [hget, hfresh, if_false]
      exact computeAndStore_cached cache now A _ (computeReputation_cacheExpiry now A o)
  | none =>
    simp only [hget]
    exact computeAndStore_cached cache now A _ (computeReputation_cacheExpiry now A o)

/-- On a cache miss the fetch runs the compute-and-store path. -/
theorem miss_path_eq (cache : Cache) (now : Nat) (A : String)
    (o : Except String Int) (hmiss : assocGet cache A = none) :
    fetchWalletReputationWith cache now A o
      = (computeReputation now A o,
         cacheCleanup now (assocSet cache A (computeReputation now A o)), true) := by
  unfold fetchWalletReputationWith
  simp [hmiss]

/-- The success arm of computeReputation scores with the normalized custom
score at weight one and tags the single source as custom. -/
theorem computeReputation_ok_score (now : Nat) (A : String) (cs : Int) :
    (computeReputation now A (Except.ok cs)).score = normalizeScore (some (cs : ℚ)) ∧
    (computeReputation now A (Except.ok cs)).sources.map (fun s => s.source) = ["custom"] := by
  constructor
  · show (if (1 : ℚ) > 0 then jsRound (normalizeScore (some (cs : ℚ)) * 1 / 1) else 0)
      = normalizeScore (some (cs : ℚ))
    rw [if_pos (by norm_num)]
    rw [mul_one, div_one, jsRound_normalizeScore]
  · rfl

/-- normalizeScore is the identity on integer casts inside the clamp
range. -/
theorem normalizeScore_intCast (k : ℤ) (h0 : 0 ≤ k) (h100 : k ≤ 100) :
    normalizeScore (some ((k : ℤ) : ℚ)) = ((k : ℤ) : ℚ) := by
  have hhalf : (⌊(2⁻¹ : ℚ)⌋ : ℤ) = 0 := by
    rw [Int.floor_eq_iff] <;> norm_num
  by_cases hk : ((k : ℤ) : ℚ) = 0
  · rw [hk]
    norm_num [normalizeScore, jsRound, hhalf]
  · have h1 : ¬ (((k : ℤ) : ℚ) < 0) := by
      push_neg
      exact_mod_cast h0
    have h2 : ¬ (((k : ℤ) : ℚ) > 100) := by
      push_neg
      exact_mod_cast h100
    simp [normalizeScore, hk, h1, h2, jsRound_intCast]

/-- The success arm of computeReputation marks its single source
successful. -/
theorem computeReputation_ok_success (now : Nat) (A : String) (cs : Int) :
    (computeReputation now A (Except.ok cs)).sources.map (fun s => s.success) = [true] := rfl

/-- computeReputation stamps the requested address into the record. -/
theorem computeReputation_walletAddress (now : Nat) (A : String) (o : Except String Int) :
    (computeReputation now A o).walletAddress = A := by
  cases o <;> rfl

/-- On a fresh cache hit the fetch returns the cached record unchanged and
makes no data-client call. -/
theorem hit_path_eq (cache : Cache) (now : Nat) (A : String) (o : Except String Int)
    (cached : ReputationData) (hget : assocGet cache A = some cached)
    (hfresh : now < cached.cacheExpiry) :
    fetchWalletReputationWith cache now A o = (cached, cache, false) := by
  unfold fetchWalletReputationWith
  simp [hget, hfresh]

/-- On a stale cache hit the fetch recomputes and overwrites the entry. -/
theorem stale_path_eq (cache : Cache) (now : Nat) (A : String) (o : Except String Int)
    (cached : ReputationData) (hget : assocGet cache A = some cached)
    (hstale : ¬ now < cached.cacheExpiry) :
    fetchWalletReputationWith cache now A o
      = (computeReputation now A o,
         cacheCleanup now (assocSet cache A (computeReputation now A o)), true) := by
  unfold fetchWalletReputationWith
  simp [hget, hstale]

/-- A call on the empty cache leaves exactly one entry, keyed by the bare
address, whatever the data-fetch outcome was. -/
theorem keys_after_empty_fetch (now : Nat) (A : String) (cfg : ReputationConfig)
    (fr : Except String WalletData) :
    ((fetchWalletReputation [] now A cfg fr).2.1).map (fun kv => kv.1) = [A] := by
  unfold fetchWalletReputation
  rw [miss_path_eq [] now A _ rfl]
  rfl

/-- calculateWalletReputation falls back to scoring the synthetic wallet
data when the data fetch rejected. -/
theorem calc_error_eq (A : String) (cfg : ReputationConfig) (t : Int) (msg : String) :
    calculateWalletReputation A cfg t (Except.error msg)
      = calculateScore (generateFallbackWalletData A t) cfg.weights := rfl

/-- Concrete score of the synthetic fallback wallet data of the address a:
hash 97, hence 48 transactions, 8 contract interactions, 127 days age and
4 assets, scoring 15 + 10 + 10 + 6 = 41. -/
theorem score_fallback_a (t : Int) :
    calculateScore (generateFallbackWalletData addrA t) DEFAULT_WEIGHTS = 41 := by
  have hh : (addressHash addrA).natAbs = 97 := by decide
  simp only [generateFallbackWalletData, hh, calculateScore]
  norm_num

/-- Concrete score of the synthetic fallback wallet data of the empty
address: hash 0, hence 1 transaction, 1 contract interaction, 30 days age
and 1 asset, scoring 5 + 10 + 10 + 2 = 27. -/
theorem score_fallback_empty (t : Int) :
    calculateScore (generateFallbackWalletData addrEmpty t) DEFAULT_WEIGHTS = 27 := by
  have hh : (addressHash addrEmpty).natAbs = 0 := by decide
  simp only [generateFallbackWalletData, hh, calculateScore]
  norm_num

/-- C9: a second call for the same address while the entry cached by the
first call is unexpired returns the identical cached record, leaves the
cache untouched, and issues no new data-client call (third component
false), regardless of what the data client would return the second time. -/
theorem cached_call_idempotent (c0 : Cache) (t0 t1 : Nat) (A : String)
    (cfg : ReputationConfig) (fr1 fr2 : Except String WalletData)
    (h : t1 < ((fetchWalletReputation c0 t0 A cfg fr1).1).cacheExpiry) :
    fetchWalletReputation ((fetchWalletReputation c0 t0 A cfg fr1).2.1) t1 A cfg fr2
      = ((fetchWalletReputation c0 t0 A cfg fr1).1,
         (fetchWalletReputation c0 t0 A cfg fr1).2.1, false) := by
  unfold fetchWalletReputation at h ⊢
  set r1 := (fetchWalletReputationWith c0 t0 A
    (Except.ok (calculateWalletReputation A cfg (t0 : Int) fr1))).1 with hr1
  set c1 := (fetchWalletReputationWith c0 t0 A
    (Except.ok (calculateWalletReputation A cfg (t0 : Int) fr1))).2.1 with hc1
  have hc : assocGet c1 A = some r1 := by
    rw [hc1, hr1]
    exact fetch_result_cached c0 t0 A _
  unfold fetchWalletReputationWith
  rw [hc]
  simp [h]

/-- Witness for C9: the concrete second call at time 1 after a first call
at time 0 returns the first result from cache. -/
theorem cached_call_idempotent_witness :
    fetchWalletReputation
        ((fetchWalletReputation [] 0 addrA DEFAULT_CONFIG (Except.error errDown)).2.1)
        1 addrA DEFAULT_CONFIG (Except.ok sampleLiveWalletData)
      = ((fetchWalletReputation [] 0 addrA DEFAULT_CONFIG (Except.error errDown)).1,
         (fetchWalletReputation [] 0 addrA DEFAULT_CONFIG (Except.error errDown)).2.1,
         false) :=
  cached_call_idempotent [] 0 1 addrA DEFAULT_CONFIG (Except.error errDown)
    (Except.ok sampleLiveWalletData) (by decide)

/-- C1 (amended): when the data client fails terminally for an uncached
address, fetchWalletReputation still returns a result, but its score is the
normalized calculateScore of the deterministic synthetic wallet data, and
its single source is tagged custom and successful; generateFallbackScore is
only reachable through the dead catch arms. -/
theorem fallback_path_score (cache : Cache) (now : Nat) (A : String)
    (cfg : ReputationConfig) (msg : String) (hmiss : assocGet cache A = none) :
    ((fetchWalletReputation cache now A cfg (Except.error msg)).1).score
      = normalizeScore
          (some ((calculateScore (generateFallbackWalletData A (now : Int)) cfg.weights : ℚ)))
    ∧ ((fetchWalletReputation cache now A cfg (Except.error msg)).1).sources.map
        (fun s => s.source) = ["custom"] := by
  unfold fetchWalletReputation
  rw [miss_path_eq cache now A _ hmiss]
  exact computeReputation_ok_score now A _

/-- Witness for C1: the amended theorem applied to the concrete address
with the empty cache. -/
theorem fallback_path_score_witness :
    ((fetchWalletReputation [] 0 addrA DEFAULT_CONFIG (Except.error errDown)).1).score
      = normalizeScore
          (some ((calculateScore (generateFallbackWalletData addrA ((0 : Nat) : Int))
            DEFAULT_CONFIG.weights : ℚ)))
    ∧ ((fetchWalletReputation [] 0 addrA DEFAULT_CONFIG (Except.error errDown)).1).sources.map
        (fun s => s.source) = ["custom"] :=
  fallback_path_score [] 0 addrA DEFAULT_CONFIG errDown rfl

/-- Counterexample for C1 as stated: for the address a with the data client
failing, the returned score is 41 while generateFallbackScore gives 35, and
no source is tagged fallback. -/
theorem fallback_claim_counterexample :
    ((fetchWalletReputation [] 0 addrA DEFAULT_CONFIG (Except.error errDown)).1).score = 41
    ∧ generateFallbackScore addrA = 35
    ∧ ((fetchWalletReputation [] 0 addrA DEFAULT_CONFIG (Except.error errDown)).1).sources.map
        (fun s => s.source) = ["custom"]
    ∧ ((fetchWalletReputation [] 0 addrA DEFAULT_CONFIG (Except.error errDown)).1).score
        ≠ ((generateFallbackScore addrA : ℚ)) := by
  have hgfs : generateFallbackScore addrA = 35 := by decide
  have hcalc : calculateWalletReputation addrA DEFAULT_CONFIG ((0 : Nat) : Int)
      (Except.error errDown) = 41 := by
    rw [calc_error_eq]
    exact score_fallback_a _
  have hscore :
      ((fetchWalletReputation [] 0 addrA DEFAULT_CONFIG (Except.error errDown)).1).score
        = 41 := by
    unfold fetchWalletReputation
    rw [miss_path_eq [] 0 addrA _ rfl]
    rw [(computeReputation_ok_score 0 addrA _).1, hcalc]
    rw [normalizeScore_intCast 41 (by norm_num) (by norm_num)]
    norm_num
  have hsources :
      ((fetchWalletReputation [] 0 addrA DEFAULT_CONFIG (Except.error errDown)).1).sources.map
        (fun s => s.source) = ["custom"] := by
    unfold fetchWalletReputation
    rw [miss_path_eq [] 0 addrA _ rfl]
    exact (computeReputation_ok_score 0 addrA _).2
  refine ⟨hscore, hgfs, hsources, ?_⟩
  rw [hscore, hgfs]
  norm_num

/-- C2 (amended): fetchWalletReputation validates nothing and never raises a
caller-visible error: for every address, the empty string included, and
every data-fetch outcome, the computed path completes with a score that is
an integer between 0 and 100. -/
theorem fetch_never_errors (cache : Cache) (now : Nat) (A : String)
    (cfg : ReputationConfig) (fr : Except String WalletData)
    (hmiss : assocGet cache A = none) :
    ∃ k : ℤ, ((fetchWalletReputation cache now A cfg fr).1).score = (k : ℚ)
      ∧ 0 ≤ k ∧ k ≤ 100 ∧ (fetchWalletReputation cache now A cfg fr).2.2 = true := by
  unfold fetchWalletReputation
  rw [miss_path_eq cache now A _ hmiss]
  obtain ⟨k, hk, h0, h100⟩ :=
    normalizeScore_int (some ((calculateWalletReputation A cfg (now : Int) fr : Int) : ℚ))
  refine ⟨k, ?_, h0, h100, rfl⟩
  rw [(computeReputation_ok_score now A _).1, hk]

/-- Witness for C2: the amended theorem applied to the empty address. -/
theorem fetch_never_errors_witness :
    ∃ k : ℤ,
      ((fetchWalletReputation [] 0 addrEmpty DEFAULT_CONFIG (Except.error errDown)).1).score
          = (k : ℚ)
      ∧ 0 ≤ k ∧ k ≤ 100
      ∧ (fetchWalletReputation [] 0 addrEmpty DEFAULT_CONFIG (Except.error errDown)).2.2
          = true :=
  fetch_never_errors [] 0 addrEmpty DEFAULT_CONFIG (Except.error errDown) rfl

/-- Counterexample for C2 as stated: the empty address is not rejected; the
call completes normally with score 27 and a successful custom source. -/
theorem empty_address_counterexample :
    ((fetchWalletReputation [] 0 addrEmpty DEFAULT_CONFIG (Except.error errDown)).1).score = 27
    ∧ ((fetchWalletReputation [] 0 addrEmpty DEFAULT_CONFIG (Except.error errDown)).1).sources.map
        (fun s => s.success) = [true]
    ∧ ((fetchWalletReputation [] 0 addrEmpty DEFAULT_CONFIG (Except.error errDown)).1).walletAddress
        = addrEmpty := by
  have hcalc : calculateWalletReputation addrEmpty DEFAULT_CONFIG ((0 : Nat) : Int)
      (Except.error errDown) = 27 := by
    rw [calc_error_eq]
    exact score_fallback_empty _
  refine ⟨?_, ?_, ?_⟩ <;>
    (unfold fetchWalletReputation; rw [miss_path_eq [] 0 addrEmpty _ rfl])
  · rw [(computeReputation_ok_score 0 addrEmpty _).1, hcalc]
    rw [normalizeScore_intCast 27 (by norm_num) (by norm_num)]
    norm_num
  · exact computeReputation_ok_success 0 addrEmpty _
  · exact computeReputation_walletAddress 0 addrEmpty _

/-- C3 (amended): the cache key is the bare address with no data-source
component: starting from an empty cache, any call, live outcome or failed
outcome alike, leaves exactly one entry and its key is the address. -/
theorem cache_key_is_address (now : Nat) (A : String) (cfg : ReputationConfig)
    (fr : Except String WalletData) :
    ((fetchWalletReputation [] now A cfg fr).2.1).map (fun kv => kv.1) = [A] := by
  unfold fetchWalletReputation
  rw [miss_path_eq [] now A _ rfl]
  rfl

/-- Counterexample for C3 as stated: after a failed-data call for the
address a, a live call for the same address within the TTL is answered by
the cached fallback-derived record, and a live call after expiry overwrites
the same single key; the two modes never get distinct keys. -/
theorem cache_key_counterexample :
    (((fetchWalletReputation [] 0 addrA DEFAULT_CONFIG (Except.error errDown)).2.1).map
        (fun kv => kv.1) = [addrA])
    ∧ (((fetchWalletReputation
          ((fetchWalletReputation [] 0 addrA DEFAULT_CONFIG (Except.error errDown)).2.1)
          300000 addrA DEFAULT_CONFIG (Except.ok sampleLiveWalletData)).2.1).map
        (fun kv => kv.1) = [addrA])
    ∧ ((fetchWalletReputation
          ((fetchWalletReputation [] 0 addrA DEFAULT_CONFIG (Except.error errDown)).2.1)
          1 addrA DEFAULT_CONFIG (Except.ok sampleLiveWalletData)).1
        = (fetchWalletReputation [] 0 addrA DEFAULT_CONFIG (Except.error errDown)).1) := by
  have h1 : fetchWalletReputation [] 0 addrA DEFAULT_CONFIG (Except.error errDown)
      = (fallbackRecordA, [(addrA, fallbackRecordA)], true) := by
    unfold fetchWalletReputation
    rw [miss_path_eq [] 0 addrA _ rfl]
    rfl
  have hexp1 : fallbackRecordA.cacheExpiry = 300000 := rfl
  refine ⟨?_, ?_, ?_⟩
  · rw [h1]
    rfl
  · rw [h1]
    show ((fetchWalletReputation [(addrA, fallbackRecordA)] 300000 addrA DEFAULT_CONFIG
        (Except.ok sampleLiveWalletData)).2.1).map (fun kv => kv.1) = [addrA]
    unfold fetchWalletReputation
    rw [stale_path_eq [(addrA, fallbackRecordA)] 300000 addrA _ fallbackRecordA
      (by simp [assocGet]) (by rw [hexp1]; norm_num)]
    rfl
  · rw [h1]
    show (fetchWalletReputation [(addrA, fallbackRecordA)] 1 addrA DEFAULT_CONFIG
        (Except.ok sampleLiveWalletData)).1 = fallbackRecordA
    unfold fetchWalletReputation
    rw [hit_path_eq [(addrA, fallbackRecordA)] 1 addrA _ fallbackRecordA
      (by simp [assocGet]) (by rw [hexp1]; norm_num)]

/-- Unfolding lemma for the key list of a cons cell. -/
theorem assocKeys_cons {α : Type _} (k1 : String) (v1 : α) (t : List (String × α)) :
    assocKeys ((k1, v1) :: t) = k1 :: assocKeys t := rfl

/-- assocSet leaves the key list unchanged on overwrite and appends the new
key otherwise. -/
theorem assocKeys_assocSet {α : Type _} (l : List (String × α)) (k : String) (v : α) :
    assocKeys (assocSet l k v)
      = if k ∈ assocKeys l then assocKeys l else assocKeys l ++ [k] := by
  induction l with
  | nil => simp [assocSet, assocKeys]
  | cons head tail ih =>
    rcases head with ⟨k1, v1⟩
    by_cases hk : k1 = k
    · subst hk
      simp [assocSet, assocKeys_cons, List.mem_cons]
    · have hkk : ¬ k = k1 := fun hh => hk hh.symm
      rw [show assocSet ((k1, v1) :: tail) k v = (k1, v1) :: assocSet tail k v by
        simp [assocSet, hk]]
      rw [assocKeys_cons, assocKeys_cons, ih]
      by_cases hmem : k ∈ assocKeys tail
      · rw [if_pos hmem, if_pos (by simp [List.mem_cons, hmem])]
      · rw [if_neg hmem, if_neg (by simp [List.mem_cons, hkk, hmem])]
        simp

/-- A key is present exactly when a lookup succeeds. -/
theorem mem_assocKeys_iff_get {α : Type _} (l : List (String × α)) (k : String) :
    k ∈ assocKeys l ↔ (assocGet l k).isSome := by
  induction l with
  | nil => simp [assocKeys, assocGet]
  | cons head tail ih =>
    rcases head with ⟨k1, v1⟩
    by_cases hk : k1 = k
    · subst hk
      simp [assocKeys, assocGet]
    · have hkk : ¬ k = k1 := fun hh => hk hh.symm
      simp [assocKeys, assocGet, hk, hkk] at ih ⊢
      simpa [assocKeys] using ih

/-- assocSet preserves distinctness of keys. -/
theorem assocKeys_assocSet_nodup {α : Type _} (l : List (String × α)) (k : String) (v : α)
    (h : (assocKeys l).Nodup) : (assocKeys (assocSet l k v)).Nodup := by
  rw [assocKeys_assocSet]
  split_ifs with hmem
  · exact h
  · refine List.Nodup.append h (List.nodup_singleton k) ?_
    intro a ha hb
    rw [List.mem_singleton] at hb
    subst hb
    exact hmem ha

/-- Folding the paired scores into the record equals folding the plain
writes. -/
theorem foldl_pairs (g : String → Int) (l : List String) :
    ∀ acc : List (String × Int),
      (l.map (fun x => (x, g x))).foldl (fun r p => assocSet r p.1 p.2) acc
        = l.foldl (fun r x => assocSet r x (g x)) acc := by
  induction l with
  | nil => intro acc; rfl
  | cons b t ih =>
    intro acc
    simp only [List.map_cons, List.foldl_cons]
    exact ih _

/-- Lookup after a fold of writes: every address written gets its own
score, everything else is untouched. -/
theorem assocGet_foldl_set (g : String → Int) (l : List String) :
    ∀ (acc : List (String × Int)) (a : String),
      assocGet (l.foldl (fun r x => assocSet r x (g x)) acc) a
        = if a ∈ l then some (g a) else assocGet acc a := by
  induction l with
  | nil => intro acc a; simp
  | cons b t ih =>
    intro acc a
    simp only [List.foldl_cons]
    rw [ih]
    by_cases hat : a ∈ t
    · simp [hat]
    · by_cases hab : a = b
      · subst hab
        simp [hat, assocGet_assocSet_self]
      · simp [hat, hab, assocGet_assocSet_ne acc b a (g b) hab]

/-- Key membership after a fold of writes. -/
theorem assocKeys_foldl_mem (g : String → Int) (l : List String) (acc : List (String × Int))
    (a : String) :
    a ∈ assocKeys (l.foldl (fun r x => assocSet r x (g x)) acc)
      ↔ a ∈ l ∨ a ∈ assocKeys acc := by
  rw [mem_assocKeys_iff_get, assocGet_foldl_set]
  split_ifs with h
  · simp [h]
  · simp [h, mem_assocKeys_iff_get]

/-- A fold of writes preserves distinctness of keys. -/
theorem assocKeys_foldl_nodup (g : String → Int) (l : List String) :
    ∀ acc : List (String × Int),
      (assocKeys acc).Nodup → (assocKeys (l.foldl (fun r x => assocSet r x (g x)) acc)).Nodup := by
  induction l with
  | nil => intro acc h; simpa using h
  | cons b t ih =>
    intro acc h
    simp only [List.foldl_cons]
    exact ih _ (assocKeys_assocSet_nodup _ _ _ h)

/-- The chunked batch loop computes the same record as a single left fold
over all the addresses: the group boundaries only schedule the work. -/
theorem batchGo_eq (config : ReputationConfig) (now : Int)
    (fetch : String → Except String WalletData) :
    ∀ (l : List String) (acc : List (String × Int)),
      batchGo config now fetch l acc
        = l.foldl
            (fun r x => assocSet r x (calculateWalletReputation x config now (fetch x))) acc
  | [], _ => by
    rw [batchGo]
    rfl
  | a :: rest, acc => by
    rw [batchGo]
    rw [batchGo_eq config now fetch ((a :: rest).drop 10)]
    rw [foldl_pairs (fun x => calculateWalletReputation x config now (fetch x)) ((a :: rest).take 10)]
    rw [← List.foldl_append]
    rw [List.take_append_drop]
termination_by l _ => l.length
decreasing_by simp [List.length_drop]; omega

/-- C8 (amended): batchCalculateReputation returns exactly one entry per
distinct input address, and a failure while scoring one address aborts
nothing: every address, failed fetch or not, maps to the score
calculateWalletReputation produces for its own fetch outcome, which for a
failed fetch is the score of the deterministic synthetic fallback wallet
data rather than generateFallbackScore. -/
theorem batch_complete (addresses : List String) (config : ReputationConfig)
    (now : Int) (fetch : String → Except String WalletData) :
    (∀ a, a ∈ assocKeys (batchCalculateReputation addresses config now fetch)
        ↔ a ∈ addresses)
    ∧ (assocKeys (batchCalculateReputation addresses config now fetch)).Nodup
    ∧ ∀ a ∈ addresses,
        assocGet (batchCalculateReputation addresses config now fetch) a
          = some (calculateWalletReputation a config now (fetch a)) := by
  unfold batchCalculateReputation
  rw [batchGo_eq]
  refine ⟨fun a => ?_, ?_, fun a ha => ?_⟩
  · rw [assocKeys_foldl_mem]
    simp [assocKeys]
  · exact assocKeys_foldl_nodup _ addresses [] (by simp [assocKeys])
  · rw [assocGet_foldl_set]
    simp [ha]

/-- Witness for C8: the theorem applied to a concrete three-element address
list with a duplicate and an always-failing data client. -/
theorem batch_complete_witness :
    assocGet (batchCalculateReputation [addrA, addrB, addrA] DEFAULT_CONFIG 0
        (fun _ => Except.error errDown)) addrB
      = some (calculateWalletReputation addrB DEFAULT_CONFIG 0 (Except.error errDown)) :=
  (batch_complete [addrA, addrB, addrA] DEFAULT_CONFIG 0
    (fun _ => Except.error errDown)).2.2 addrB (by decide)

/-- Counterexample for C8 as stated: with the data client failing, the one
address in the batch maps to 41, the score of its synthetic fallback wallet
data, not to its fallback score generateFallbackScore, which is 35. -/
theorem batch_fallback_counterexample :
    batchCalculateReputation [addrA] DEFAULT_CONFIG 0 (fun _ => Except.error errDown)
      = [(addrA, 41)]
    ∧ generateFallbackScore addrA = 35 ∧ (41 : Int) ≠ 35 := by
  have hcalc : calculateWalletReputation addrA DEFAULT_CONFIG 0 (Except.error errDown) = 41 := by
    rw [calc_error_eq]
    exact score_fallback_a _
  refine ⟨?_, by decide, by decide⟩
  unfold batchCalculateReputation
  rw [batchGo_eq]
  simp only [List.foldl_cons, List.foldl_nil]
  rw [hcalc]
  rfl

end Decap
